import Mathlib

/-!
Verification development for the Green AI Orchestrator repository.

The Python core (src/src/orchestrator/{scoring,models,decision_engine}.py and
src/src/monitors/*.py) is shallowly embedded below.  Python floats are
modelled as rationals (`ℚ`); the single genuinely irrational operation,
`confidence ** 0.5`, is modelled with `Real.sqrt` on top of a rational core.
Python dictionaries that the code reads with `.get(key, default)` are
modelled as association lists `List (String × ℚ)` with a defaulting lookup.
Exception flow is modelled with `Except PyExc`.
-/

namespace GreenOrch

/-- Python's `max(0.0, min(1.0, x))` clamp used throughout the scoring code. -/
def clamp01 (x : ℚ) : ℚ := max 0 (min 1 x)

/-- Python `d.get(k, default)` on a string-keyed float dictionary. -/
def dictGetD (m : List (String × ℚ)) (k : String) (d : ℚ) : ℚ :=
  (m.lookup k).getD d

/-- Sum of `d.values()` for a string-keyed float dictionary. -/
def valuesSum (m : List (String × ℚ)) : ℚ :=
  (m.map Prod.snd).sum

/-- `SystemContext` from src/src/orchestrator/models.py (lines 19-27).
The `timestamp` and `additional_data` fields are never read by the scoring
code and are omitted. -/
structure SystemContext where
  battery : ℚ
  network : ℚ
  carbon : ℚ
  platform : String
deriving DecidableEq

/-- `calculate_sustainability_score` from src/src/orchestrator/scoring.py
(lines 10-38): reads battery/network/carbon from `monitor_values` with
default 0.5, inverts carbon, forms the weighted sum with weight defaults
battery 0.4, network 0.3, carbon 0.3, and clamps to [0,1]. -/
def calculate_sustainability_score (monitor_values weights : List (String × ℚ)) : ℚ :=
  let battery := dictGetD monitor_values "battery" (1/2)
  let network := dictGetD monitor_values "network" (1/2)
  let carbon := dictGetD monitor_values "carbon" (1/2)
  let carbon_score := 1 - carbon
  let score :=
    battery * dictGetD weights "battery" (2/5) +
    network * dictGetD weights "network" (3/10) +
    carbon_score * dictGetD weights "carbon" (3/10)
  clamp01 score

/-- The weighted-sum-then-clamp formula exactly as the specification words it
(spec §4.2 / claim C3): `battery·w_battery + network·w_network +
(1−carbon)·w_carbon` clamped to [0,1], a missing battery/network/carbon value
defaulting to 0.5 and a missing weight defaulting to 0.4/0.3/0.3. -/
def spec_sustainability_score (monitor_values weights : List (String × ℚ)) : ℚ :=
  clamp01 (dictGetD monitor_values "battery" (1/2) * dictGetD weights "battery" (2/5)
    + dictGetD monitor_values "network" (1/2) * dictGetD weights "network" (3/10)
    + (1 - dictGetD monitor_values "carbon" (1/2)) * dictGetD weights "carbon" (3/10))

/-- The combined confidence before the square-root compression:
lines 53-66 of src/src/orchestrator/scoring.py, the mean of the four
sub-confidences `1-2|score-0.5|`, `1-2|battery-0.5|`, `network`,
`1-2|carbon-0.5|`. -/
def confidencePre (score : ℚ) (context : SystemContext) : ℚ :=
  let score_confidence := 1 - |score - 1/2| * 2
  let battery_confidence := 1 - |context.battery - 1/2| * 2
  let network_confidence := context.network
  let carbon_confidence := 1 - |context.carbon - 1/2| * 2
  (score_confidence + battery_confidence + network_confidence + carbon_confidence) / 4

/-- `calculate_confidence` from src/src/orchestrator/scoring.py (lines 41-71):
the combined confidence is raised to the power 0.5 (`Real.sqrt`; the Python
`** 0.5` agrees with the real square root on the nonnegative inputs reachable
under the documented [0,1] input ranges) and clamped to [0,1]. -/
noncomputable def calculate_confidence (score : ℚ) (context : SystemContext) : ℝ :=
  max 0 (min 1 (Real.sqrt ((confidencePre score context : ℚ) : ℝ)))

/-- `ExecutionMode` from src/src/orchestrator/models.py (lines 11-16). -/
inductive ExecutionMode where
  | EDGE_ONLY
  | CLOUD_ONLY
  | HYBRID
  | DEFERRED
deriving DecidableEq

/-- The `.value` string of each `ExecutionMode` enum member. -/
def ExecutionMode.value : ExecutionMode → String
  | .EDGE_ONLY => "edge_only"
  | .CLOUD_ONLY => "cloud_only"
  | .HYBRID => "hybrid"
  | .DEFERRED => "deferred"

/-- The four enum members in declaration order (Python `for mode in ExecutionMode`). -/
def ExecutionMode.all : List ExecutionMode :=
  [.EDGE_ONLY, .CLOUD_ONLY, .HYBRID, .DEFERRED]

/-- `OrchestratorConfig` from src/src/orchestrator/models.py (lines 44-71).
Fields never read by the validated/decision logic (monitor enable flags,
carbon zone, logging and version strings) are omitted. -/
structure OrchestratorConfig where
  weights : List (String × ℚ)
  threshold : ℚ
  hard_edge_battery : ℚ
  hard_cloud_battery : ℚ
  decision_history_size : ℕ
deriving DecidableEq

/-- The dataclass defaults of `OrchestratorConfig`. -/
def defaultConfig : OrchestratorConfig :=
  { weights := [("battery", 2/5), ("network", 3/10), ("carbon", 3/10)]
    threshold := 1/2
    hard_edge_battery := 1/5
    hard_cloud_battery := 4/5
    decision_history_size := 1000 }

/-- The three `ValueError`s that `OrchestratorConfig.validate` and
`OrchestratorConfig.update_weights` can raise, by originating check. -/
inductive ConfigError where
  | thresholdOutOfRange
  | weightSumInvalid
  | emptyWeights
deriving DecidableEq

/-- `OrchestratorConfig.validate` from src/src/orchestrator/models.py
(lines 73-83): checks `0 <= threshold <= 1`, then `abs(sum(weights) - 1) <=
0.001`, then that the weights dictionary is nonempty, in that order. -/
def OrchestratorConfig.validate (c : OrchestratorConfig) : Except ConfigError Unit :=
  if ¬ (0 ≤ c.threshold ∧ c.threshold ≤ 1) then
    .error .thresholdOutOfRange
  else if |valuesSum c.weights - 1| > 1/1000 then
    .error .weightSumInvalid
  else if c.weights = [] then
    .error .emptyWeights
  else
    .ok ()

/-- Python `dict.update`: existing keys are overwritten in place, keys of
`new` not yet present are appended in their order in `new`. -/
def dictUpdate (old new : List (String × ℚ)) : List (String × ℚ) :=
  old.map (fun p => (p.1, (new.lookup p.1).getD p.2)) ++
    new.filter (fun p => (old.lookup p.1).isNone)

/-- `OrchestratorConfig.update_weights` from src/src/orchestrator/models.py
(lines 85-90): rejects `new_weights` whose value sum is off 1.0 by more than
0.001, otherwise merges them into the stored weights with `dict.update`. -/
def OrchestratorConfig.update_weights (c : OrchestratorConfig)
    (new_weights : List (String × ℚ)) : Except ConfigError OrchestratorConfig :=
  if |valuesSum new_weights - 1| > 1/1000 then
    .error .weightSumInvalid
  else
    .ok { c with weights := dictUpdate c.weights new_weights }

/-- The execution-mode selection of `DynamicGreenOrchestrator.make_decision`,
src/src/orchestrator/decision_engine.py lines 258-269: four rules tried in
order with strict comparisons, first match winning, each paired with its
explanation string. -/
def decideModeExplanation (battery_status network_status score : ℚ)
    (c : OrchestratorConfig) : ExecutionMode × String :=
  if battery_status < c.hard_edge_battery then
    (.CLOUD_ONLY, "Battery too low for edge processing")
  else if battery_status > c.hard_cloud_battery ∧ network_status > 7/10 then
    (.EDGE_ONLY, "High battery and good network for edge processing")
  else if score > c.threshold then
    (.HYBRID, "Good conditions for hybrid processing")
  else
    (.DEFERRED, "Poor conditions, defer processing")

/-- A Python object as seen by `make_decision`'s `hasattr` probes: the set of
attribute names the object (class members plus instance attributes) exposes,
and the float obtained by reading/calling a given attribute. -/
structure PyMonitor where
  attrs : List String
  callAttr : String → ℚ

/-- `hasattr(obj, name)`. -/
def pyHasattr (m : PyMonitor) (name : String) : Bool :=
  m.attrs.contains name

/-- The battery probe of `make_decision`, decision_engine.py lines 186-200:
try `get_level`, then `read`, then `battery_level`, else default 0.5; also
0.5 when no battery monitor is registered. -/
def batteryStatusOf (m : Option PyMonitor) : ℚ :=
  match m with
  | none => 1/2
  | some mon =>
    if pyHasattr mon "get_level" then mon.callAttr "get_level"
    else if pyHasattr mon "read" then mon.callAttr "read"
    else if pyHasattr mon "battery_level" then mon.callAttr "battery_level"
    else 1/2

/-- The network probe of `make_decision`, decision_engine.py lines 202-216:
try `get_speed`, then `read`, then `network_quality`, else default 0.5. -/
def networkStatusOf (m : Option PyMonitor) : ℚ :=
  match m with
  | none => 1/2
  | some mon =>
    if pyHasattr mon "get_speed" then mon.callAttr "get_speed"
    else if pyHasattr mon "read" then mon.callAttr "read"
    else if pyHasattr mon "network_quality" then mon.callAttr "network_quality"
    else 1/2

/-- The carbon probe of `make_decision`, decision_engine.py lines 218-232:
try `get_carbon_intensity`, then `read`, then `carbon_intensity`, else
default 0.5. -/
def carbonStatusOf (m : Option PyMonitor) : ℚ :=
  match m with
  | none => 1/2
  | some mon =>
    if pyHasattr mon "get_carbon_intensity" then mon.callAttr "get_carbon_intensity"
    else if pyHasattr mon "read" then mon.callAttr "read"
    else if pyHasattr mon "carbon_intensity" then mon.callAttr "carbon_intensity"
    else 1/2

/-- The `monitor_values` dictionary built at decision_engine.py lines 234-239. -/
def monitorValuesOf (battery_status network_status carbon_status : ℚ) :
    List (String × ℚ) :=
  [("battery", battery_status), ("network", network_status),
   ("carbon", carbon_status)]

/-- The score computed by `make_decision` (decision_engine.py line 242) from
the three probed monitors. -/
def makeDecisionScore (bm nm cm : Option PyMonitor) (c : OrchestratorConfig) : ℚ :=
  calculate_sustainability_score
    (monitorValuesOf (batteryStatusOf bm) (networkStatusOf nm) (carbonStatusOf cm))
    c.weights

/-- The mode/explanation pair computed by `make_decision` (decision_engine.py
lines 258-269) from the three probed monitors. -/
def makeDecisionModeExplanation (bm nm cm : Option PyMonitor)
    (c : OrchestratorConfig) : ExecutionMode × String :=
  decideModeExplanation (batteryStatusOf bm) (networkStatusOf nm)
    (makeDecisionScore bm nm cm c) c

/-- Attribute names of `BaseMonitor` (src/src/monitors/base_monitor.py):
instance attributes set in `__init__` plus its public methods. -/
def baseMonitorAttrs : List String :=
  ["name", "last_update_time", "cache_ttl", "cache",
   "is_available", "get_info", "get_cached_info", "refresh", "set_cache_ttl"]

/-- Attribute names of abstract `BatteryMonitor` (battery_monitor.py). -/
def batteryMonitorAttrs : List String :=
  baseMonitorAttrs ++ ["_get_raw_battery_info", "_get_fallback_info"]

/-- Attribute names of `MacOSBatteryMonitor`. -/
def macOSBatteryMonitorAttrs : List String := batteryMonitorAttrs

/-- Attribute names of `LinuxBatteryMonitor`. -/
def linuxBatteryMonitorAttrs : List String :=
  batteryMonitorAttrs ++ ["_read_from_sysfs", "_read_from_proc_acpi"]

/-- Attribute names of `WindowsBatteryMonitor`. -/
def windowsBatteryMonitorAttrs : List String := batteryMonitorAttrs

/-- Attribute names of `UniversalBatteryMonitor`. -/
def universalBatteryMonitorAttrs : List String :=
  batteryMonitorAttrs ++ ["platform_monitors", "current_monitor", "_initialize_monitors"]

/-- Attribute names of `SimulatedBatteryMonitor`. -/
def simulatedBatteryMonitorAttrs : List String :=
  batteryMonitorAttrs ++
    ["percentage", "is_charging", "discharge_rate", "charge_rate", "last_update"]

/-- Attribute names of abstract `NetworkMonitor` (network_monitor.py). -/
def networkMonitorAttrs : List String :=
  baseMonitorAttrs ++ ["_get_raw_network_info", "_get_fallback_info", "_calculate_quality"]

/-- Attribute names of `SpeedTestMonitor`. -/
def speedTestMonitorAttrs : List String :=
  networkMonitorAttrs ++ ["speedtest_available", "_check_speedtest_availability"]

/-- Attribute names of `PingMonitor`. -/
def pingMonitorAttrs : List String :=
  networkMonitorAttrs ++ ["ping_hosts", "_ping_host"]

/-- Attribute names of `SimulatedNetworkMonitor`. -/
def simulatedNetworkMonitorAttrs : List String :=
  networkMonitorAttrs ++ ["base_speed", "base_latency", "last_update"]

/-- Attribute names of abstract `CarbonMonitor` (carbon_monitor.py). -/
def carbonMonitorAttrs : List String :=
  baseMonitorAttrs ++ ["_get_raw_carbon_info", "_get_fallback_info", "_is_green_grid"]

/-- Attribute names of `ElectricityMapsMonitor`. -/
def electricityMapsMonitorAttrs : List String :=
  carbonMonitorAttrs ++ ["api_key", "base_url"]

/-- Attribute names of `SimulatedCarbonMonitor`. -/
def simulatedCarbonMonitorAttrs : List String :=
  carbonMonitorAttrs ++ ["zone_intensities", "last_update"]

/-- Attribute-name sets of every battery monitor class that
`MonitorFactory.create_battery_monitor` (factory.py lines 36-72) can return. -/
def factoryBatteryAttrLists : List (List String) :=
  [simulatedBatteryMonitorAttrs, universalBatteryMonitorAttrs,
   macOSBatteryMonitorAttrs, linuxBatteryMonitorAttrs, windowsBatteryMonitorAttrs]

/-- Attribute-name sets of every network monitor class that
`MonitorFactory.create_network_monitor` (factory.py lines 74-115) can return. -/
def factoryNetworkAttrLists : List (List String) :=
  [speedTestMonitorAttrs, pingMonitorAttrs, simulatedNetworkMonitorAttrs]

/-- Attribute-name sets of every carbon monitor class that
`MonitorFactory.create_carbon_monitor` (factory.py lines 117-155) can return. -/
def factoryCarbonAttrLists : List (List String) :=
  [electricityMapsMonitorAttrs, simulatedCarbonMonitorAttrs]

/-- `Decision` from src/src/orchestrator/models.py (lines 30-41); the
`timestamp` float is modelled as a rational field like the others. -/
structure Decision where
  score : ℚ
  confidence : ℚ
  battery : ℚ
  network : ℚ
  carbon : ℚ
  timestamp : ℚ
  recommended_mode : ExecutionMode
  explanation : String
deriving DecidableEq

/-- Python `l[-size:]` for `size` a nonnegative int: the last `size` elements,
except that `l[-0:]` is the whole list. -/
def pySliceLast (size : ℕ) (l : List Decision) : List Decision :=
  if size = 0 then l else l.drop (l.length - size)

/-- The history append-and-trim step at the end of `make_decision`
(decision_engine.py lines 284-289): append the new decision, then if the
length exceeds `decision_history_size` keep only the last
`decision_history_size` entries. -/
def appendDecisionStep (size : ℕ) (history : List Decision) (d : Decision) :
    List Decision :=
  let history' := history ++ [d]
  if size < history'.length then pySliceLast size history' else history'

/-- The decision history after a sequence of `make_decision` calls appending
the decisions `ds`, starting from the empty history of `__init__`. -/
def runHistory (size : ℕ) (ds : List Decision) : List Decision :=
  ds.foldl (appendDecisionStep size) []

/-- A value of the dictionary returned by `get_statistics`: either a float
(counts are ints, modelled in `ℚ` like the other numbers) or the
mode-distribution sub-dictionary mapping mode value strings to counts. -/
inductive StatValue where
  | num (q : ℚ)
  | dist (d : List (String × ℕ))
deriving DecidableEq

/-- Python `min(l)` on a nonempty float list (0 on the empty list, which the
caller excludes). -/
def pyMin (l : List ℚ) : ℚ :=
  match l with
  | [] => 0
  | x :: xs => xs.foldl min x

/-- Python `max(l)` on a nonempty float list (0 on the empty list, which the
caller excludes). -/
def pyMax (l : List ℚ) : ℚ :=
  match l with
  | [] => 0
  | x :: xs => xs.foldl max x

/-- The `mode_distribution` sub-dictionary of `get_statistics`
(decision_engine.py lines 326-329): for each of the four enum members in
declaration order, the number of retained decisions recommending it. -/
def modeDistribution (history : List Decision) : List (String × ℕ) :=
  ExecutionMode.all.map fun mode =>
    (mode.value, (history.filter fun d => d.recommended_mode = mode).length)

/-- `DynamicGreenOrchestrator.get_statistics` from decision_engine.py
(lines 312-330): the empty dictionary on an empty history, otherwise the
six-key dictionary built at lines 320-330. -/
def getStatistics (history : List Decision) : List (String × StatValue) :=
  if history = [] then []
  else
    let scores := history.map Decision.score
    let confidences := history.map Decision.confidence
    [("total_decisions", .num history.length),
     ("average_score", .num (scores.sum / scores.length)),
     ("average_confidence", .num (confidences.sum / confidences.length)),
     ("min_score", .num (pyMin scores)),
     ("max_score", .num (pyMax scores)),
     ("mode_distribution", .dist (modeDistribution history))]

/-- Python exception classes appearing in the monitor modules.  `runtime`
carries the message of the raised `RuntimeError`; `other` stands for any
further `Exception` subclass (e.g. `OSError` out of `subprocess.run`). -/
inductive PyExc where
  | nameErr
  | timeoutErr
  | subprocessErr
  | valueErr
  | runtime (msg : String)
  | other
deriving DecidableEq

/-- The raw battery dictionary produced by a `_get_raw_battery_info`
implementation; fields are optional because `BatteryMonitor.get_info` reads
them defensively with `.get`. -/
structure BatteryRaw where
  percentage : Option ℚ
  is_charging : Option Bool
  status : Option String
  source : Option String

/-- The standardized battery reading built by `BatteryMonitor.get_info`
(battery_monitor.py lines 38-48); the `timestamp`/`raw_data` entries carry no
monitored data and are omitted. -/
structure BatteryInfo where
  percentage : ℚ
  is_charging : Bool
  status : String
  source : String
deriving DecidableEq

/-- `BatteryMonitor.get_info` from src/src/monitors/battery_monitor.py
(lines 32-57): standardize the raw probe result, clamping the percentage to
[0,100]; on any `Exception` from the probe return `_get_fallback_info()`
(85.0%, charging, status and source "fallback", lines 59-68). -/
def batteryGetInfo (probe : Except PyExc BatteryRaw) : Except PyExc BatteryInfo :=
  match probe with
  | .ok raw =>
    .ok { percentage := max 0 (min 100 (raw.percentage.getD 0))
          is_charging := raw.is_charging.getD false
          status := raw.status.getD "unknown"
          source := raw.source.getD "unknown" }
  | .error _ =>
    .ok { percentage := 85, is_charging := true,
          status := "fallback", source := "fallback" }

/-- The raw network dictionary produced by a `_get_raw_network_info`
implementation, with the optional fields `NetworkMonitor.get_info` reads. -/
structure NetworkRaw where
  speed_mbps : Option ℚ
  latency_ms : Option ℚ
  quality : Option ℚ
  connected : Option Bool
  source : Option String

/-- The standardized network reading built by `NetworkMonitor.get_info`
(network_monitor.py lines 38-49). -/
structure NetworkInfo where
  speed_mbps : ℚ
  latency_ms : ℚ
  quality : ℚ
  connected : Bool
  source : String
deriving DecidableEq

/-- The fallback network reading `NetworkMonitor._get_fallback_info`
(network_monitor.py lines 61-71): 10.0 Mbps, 100 ms, quality 0.5, connected. -/
def networkFallbackInfo : NetworkInfo :=
  { speed_mbps := 10, latency_ms := 100, quality := 1/2,
    connected := true, source := "fallback" }

/-- `NetworkMonitor.get_info` from src/src/monitors/network_monitor.py
(lines 32-59): standardize the raw probe result, clamping quality to [0,1];
on any `Exception` from the probe return `_get_fallback_info()`. -/
def networkGetInfo (probe : Except PyExc NetworkRaw) : Except PyExc NetworkInfo :=
  match probe with
  | .ok raw =>
    .ok { speed_mbps := raw.speed_mbps.getD 0
          latency_ms := raw.latency_ms.getD 0
          quality := clamp01 (raw.quality.getD 0)
          connected := raw.connected.getD false
          source := raw.source.getD "unknown" }
  | .error _ => .ok networkFallbackInfo

/-- The raw carbon dictionary produced by a `_get_raw_carbon_info`
implementation, with the optional fields `CarbonMonitor.get_info` reads. -/
structure CarbonRaw where
  intensity : Option ℚ
  is_green : Option Bool
  zone : Option String
  source : Option String

/-- The standardized carbon reading built by `CarbonMonitor.get_info`
(carbon_monitor.py lines 36-43). -/
structure CarbonInfo where
  intensity : ℚ
  is_green : Bool
  zone : String
  source : String
deriving DecidableEq

/-- `CarbonMonitor.get_info` from src/src/monitors/carbon_monitor.py
(lines 30-52): standardize the raw probe result; on any `Exception` from the
probe return `_get_fallback_info(zone)` (intensity 400.0, not green,
lines 54-63). -/
def carbonGetInfo (zone : String) (probe : Except PyExc CarbonRaw) :
    Except PyExc CarbonInfo :=
  match probe with
  | .ok raw =>
    .ok { intensity := raw.intensity.getD 0
          is_green := raw.is_green.getD false
          zone := raw.zone.getD zone
          source := raw.source.getD "unknown" }
  | .error _ =>
    .ok { intensity := 400, is_green := false, zone := zone, source := "fallback" }

/-- The module-level names bound in src/src/monitors/network_monitor.py
(its `import` statements at lines 6-15 plus the names the module itself
defines).  `re` is not among them, so evaluating `re.search` inside
`PingMonitor._ping_host` raises `NameError`. -/
def networkMonitorModuleNames : List String :=
  ["subprocess", "socket", "time", "logging", "platform",
   "Dict", "Any", "Optional", "Tuple", "ABC", "abstractmethod", "random",
   "BaseMonitor", "logger",
   "NetworkMonitor", "SpeedTestMonitor", "PingMonitor", "SimulatedNetworkMonitor"]

/-- The outcome of the `subprocess.run(cmd, ...)` call inside
`PingMonitor._ping_host`: either a completed process (stdout and return
code) or a raised exception. -/
inductive SubprocResult where
  | completed (stdout : String) (returncode : ℤ)
  | failed (e : PyExc)

/-- The exceptions named by the `except` clause at network_monitor.py
line 235: `subprocess.SubprocessError` (which `subprocess.TimeoutExpired`
subclasses), the builtin `TimeoutError`, and `ValueError`. -/
def caughtAtPingExcept : PyExc → Bool
  | .subprocessErr => true
  | .timeoutErr => true
  | .valueErr => true
  | _ => false

/-- `PingMonitor._ping_host` from network_monitor.py (lines 201-237).  When
the subprocess completes, the parsing step `re.search(...)` is evaluated;
since `re` is not a module-level name of network_monitor.py this raises
`NameError`, which the `except` clause at line 235 does not name, so it
propagates.  When `subprocess.run` raises, a named exception is logged and
re-raised and an unnamed one propagates — either way the call raises the
same exception. -/
def pingHost (sub : SubprocResult) : Except PyExc ℚ :=
  match sub with
  | .completed _ _ => .error .nameErr
  | .failed e => if caughtAtPingExcept e then .error e else .error e

/-- The latency→speed band at network_monitor.py lines 173-180, with `rand`
standing for the `random.uniform` draw (only reachable if `_ping_host` could
return a latency). -/
def estimatedSpeed (latency rand : ℚ) : ℚ :=
  if latency < 50 then 50 + rand
  else if latency < 100 then 20 + rand
  else if latency < 200 then 5 + rand
  else 1 + rand

/-- `NetworkMonitor._calculate_quality` (network_monitor.py lines 73-84):
`0.7·min(1, speed/200) + 0.3·max(0, 1 − latency/500)`, clamped to [0,1]. -/
def calculateQuality (speed_mbps latency_ms : ℚ) : ℚ :=
  clamp01 (7/10 * min 1 (speed_mbps / 200) + 3/10 * max 0 (1 - latency_ms / 500))

/-- `PingMonitor._get_raw_network_info` from network_monitor.py
(lines 164-199): try each host in turn; a positive parsed latency would
yield a ping-derived reading (the rounding of the Python `round(_, k)` calls
is immaterial to the claims and elided), any exception falls through to the
next host (`except Exception: continue`), and after the loop a
`RuntimeError("All ping attempts failed")` is raised.  `subs` lists the
subprocess outcome for each host and `rand` the `random.uniform` draw. -/
def pingRawNetworkInfo (subs : List SubprocResult) (rand : ℚ) :
    Except PyExc NetworkRaw :=
  match subs with
  | [] => .error (.runtime "All ping attempts failed")
  | s :: rest =>
    match pingHost s with
    | .ok latency =>
      if latency > 0 then
        .ok { speed_mbps := some (estimatedSpeed latency rand)
              latency_ms := some latency
              quality := some (calculateQuality (estimatedSpeed latency rand) latency)
              connected := some true
              source := some "ping" }
      else pingRawNetworkInfo rest rand
    | .error _ => pingRawNetworkInfo rest rand

/-- A concrete retained decision used to evaluate `get_statistics`:
score 0.5, confidence 0.27, battery 0.31, rest 0.5, mode DEFERRED. -/
def decisionA : Decision :=
  ⟨1/2, 27/100, 31/100, 1/2, 1/2, 0, .DEFERRED, ""⟩

/-- A second concrete retained decision: score 0.5, confidence 0.53,
battery 0.41, rest 0.5, mode DEFERRED. -/
def decisionB : Decision :=
  ⟨1/2, 53/100, 41/100, 1/2, 1/2, 0, .DEFERRED, ""⟩

/-- A two-decision history on which the claimed confidence and battery
aggregates of `get_statistics` can be checked. -/
def historyPair : List Decision := [decisionA, decisionB]

lemma clamp01_nonneg (x : ℚ) : 0 ≤ clamp01 x := le_max_left 0 _

lemma clamp01_le_one (x : ℚ) : clamp01 x ≤ 1 := max_le (by norm_num) (min_le_left 1 x)

lemma clamp01_mono {x y : ℚ} (h : x ≤ y) : clamp01 x ≤ clamp01 y :=
  max_le_max le_rfl (min_le_min le_rfl h)

lemma clamp01_eq_self {x : ℚ} (h0 : 0 ≤ x) (h1 : x ≤ 1) : clamp01 x = x := by
  rw [clamp01, min_eq_right h1, max_eq_right h0]

lemma dictGetD_nonneg {d : ℚ} (hd : 0 ≤ d) (k : String) :
    ∀ {w : List (String × ℚ)}, (∀ p ∈ w, 0 ≤ p.2) → 0 ≤ dictGetD w k d := by
  intro w
  induction w with
  | nil => intro _; exact hd
  | cons p t ih =>
    intro hw
    obtain ⟨a, b⟩ := p
    rw [dictGetD, List.lookup]
    cases hk : k == a
    · simpa [dictGetD] using ih fun q hq => hw q (List.mem_cons_of_mem _ hq)
    · simpa using hw (a, b) (List.mem_cons_self _ _)

lemma defaultWeights_battery : dictGetD defaultConfig.weights "battery" (2/5) = 2/5 := rfl

lemma defaultWeights_network : dictGetD defaultConfig.weights "network" (3/10) = 3/10 := rfl

lemma defaultWeights_carbon : dictGetD defaultConfig.weights "carbon" (3/10) = 3/10 := rfl

lemma validate_defaultConfig : defaultConfig.validate = Except.ok () := by
  have h1 : ¬ ¬ ((0:ℚ) ≤ defaultConfig.threshold ∧ defaultConfig.threshold ≤ 1) := by
    norm_num [defaultConfig]
  have hsum : valuesSum defaultConfig.weights = 1 := by
    norm_num [valuesSum, defaultConfig]
  have h2 : ¬ |valuesSum defaultConfig.weights - 1| > 1/1000 := by
    rw [hsum]; norm_num
  have h3 : ¬ defaultConfig.weights = [] := by simp [defaultConfig]
  rw [OrchestratorConfig.validate, if_neg h1, if_neg h2, if_neg h3]

lemma calc_score_mk (b n c : ℚ) (w : List (String × ℚ)) :
    calculate_sustainability_score (monitorValuesOf b n c) w =
      clamp01 (b * dictGetD w "battery" (2/5) + n * dictGetD w "network" (3/10)
        + (1 - c) * dictGetD w "carbon" (3/10)) := rfl

lemma batteryStatus_factory (attrs : List String) (f : String → ℚ)
    (h : attrs ∈ factoryBatteryAttrLists) :
    batteryStatusOf (some ⟨attrs, f⟩) = 1/2 := by
  simp only [factoryBatteryAttrLists, List.mem_cons, List.not_mem_nil, or_false] at h
  rcases h with rfl | rfl | rfl | rfl | rfl <;> rfl

lemma networkStatus_factory (attrs : List String) (f : String → ℚ)
    (h : attrs ∈ factoryNetworkAttrLists) :
    networkStatusOf (some ⟨attrs, f⟩) = 1/2 := by
  simp only [factoryNetworkAttrLists, List.mem_cons, List.not_mem_nil, or_false] at h
  rcases h with rfl | rfl | rfl <;> rfl

lemma carbonStatus_factory (attrs : List String) (f : String → ℚ)
    (h : attrs ∈ factoryCarbonAttrLists) :
    carbonStatusOf (some ⟨attrs, f⟩) = 1/2 := by
  simp only [factoryCarbonAttrLists, List.mem_cons, List.not_mem_nil, or_false] at h
  rcases h with rfl | rfl <;> rfl

/-- C1: every monitor class that `MonitorFactory` can produce lacks all the
attribute names `make_decision` probes for, so the three probes fall through
to the default 0.5, and under the default configuration the resulting score
is exactly 0.5 and the recommended mode is DEFERRED. -/
theorem claim_C1_factory_monitors_default_deferred
    (battAttrs netAttrs carbAttrs : List String) (fb fn fc : String → ℚ)
    (hb : battAttrs ∈ factoryBatteryAttrLists)
    (hn : netAttrs ∈ factoryNetworkAttrLists)
    (hc : carbAttrs ∈ factoryCarbonAttrLists) :
    batteryStatusOf (some ⟨battAttrs, fb⟩) = 1/2 ∧
    networkStatusOf (some ⟨netAttrs, fn⟩) = 1/2 ∧
    carbonStatusOf (some ⟨carbAttrs, fc⟩) = 1/2 ∧
    makeDecisionScore (some ⟨battAttrs, fb⟩) (some ⟨netAttrs, fn⟩)
      (some ⟨carbAttrs, fc⟩) defaultConfig = 1/2 ∧
    makeDecisionModeExplanation (some ⟨battAttrs, fb⟩) (some ⟨netAttrs, fn⟩)
      (some ⟨carbAttrs, fc⟩) defaultConfig =
      (.DEFERRED, "Poor conditions, defer processing") := by
  have hb' := batteryStatus_factory battAttrs fb hb
  have hn' := networkStatus_factory netAttrs fn hn
  have hc' := carbonStatus_factory carbAttrs fc hc
  have hscore : makeDecisionScore (some ⟨battAttrs, fb⟩) (some ⟨netAttrs, fn⟩)
      (some ⟨carbAttrs, fc⟩) defaultConfig = 1/2 := by
    rw [makeDecisionScore, hb', hn', hc', calc_score_mk,
      defaultWeights_battery, defaultWeights_network, defaultWeights_carbon]
    have hx : (1:ℚ)/2 * (2/5) + 1/2 * (3/10) + (1 - 1/2) * (3/10) = 1/2 := by norm_num
    rw [hx, clamp01_eq_self (by norm_num) (by norm_num)]
  refine ⟨hb', hn', hc', hscore, ?_⟩
  rw [makeDecisionModeExplanation, hb', hn', hscore, decideModeExplanation,
    if_neg (by norm_num [defaultConfig]), if_neg (by norm_num [defaultConfig]),
    if_neg (by norm_num [defaultConfig])]

/-- C1 witness: the factory monitor combination (simulated battery, ping
network, simulated carbon) yields the default 0.5 probes, score 0.5 and
DEFERRED. -/
theorem claim_C1_factory_monitors_default_deferred_witness :
    simulatedBatteryMonitorAttrs ∈ factoryBatteryAttrLists ∧
    pingMonitorAttrs ∈ factoryNetworkAttrLists ∧
    simulatedCarbonMonitorAttrs ∈ factoryCarbonAttrLists ∧
    (batteryStatusOf (some ⟨simulatedBatteryMonitorAttrs, fun _ => 0⟩) = 1/2 ∧
      networkStatusOf (some ⟨pingMonitorAttrs, fun _ => 0⟩) = 1/2 ∧
      carbonStatusOf (some ⟨simulatedCarbonMonitorAttrs, fun _ => 0⟩) = 1/2 ∧
      makeDecisionScore (some ⟨simulatedBatteryMonitorAttrs, fun _ => 0⟩)
        (some ⟨pingMonitorAttrs, fun _ => 0⟩)
        (some ⟨simulatedCarbonMonitorAttrs, fun _ => 0⟩) defaultConfig = 1/2 ∧
      makeDecisionModeExplanation (some ⟨simulatedBatteryMonitorAttrs, fun _ => 0⟩)
        (some ⟨pingMonitorAttrs, fun _ => 0⟩)
        (some ⟨simulatedCarbonMonitorAttrs, fun _ => 0⟩) defaultConfig =
        (.DEFERRED, "Poor conditions, defer processing")) :=
  ⟨List.mem_cons_self _ _,
   List.mem_cons_of_mem _ (List.mem_cons_self _ _),
   List.mem_cons_of_mem _ (List.mem_cons_self _ _),
    claim_C1_factory_monitors_default_deferred _ _ _ _ _ _
      (List.mem_cons_self _ _)
      (List.mem_cons_of_mem _ (List.mem_cons_self _ _))
      (List.mem_cons_of_mem _ (List.mem_cons_self _ _))⟩

/-- C2 counterexample: at battery 0.1 under the default configuration the
mode is CLOUD_ONLY as claimed, but the explanation string produced by the
code is "Battery too low for edge processing" (capital B), not the string
"battery too low for edge processing" stated in the claim. -/
theorem claim_C2_explanation_counterexample :
    decideModeExplanation (1/10) (95/100) (87/100) defaultConfig =
      (.CLOUD_ONLY, "Battery too low for edge processing") ∧
    "Battery too low for edge processing" ≠ "battery too low for edge processing" :=
  ⟨by rw [decideModeExplanation, if_pos (show (1:ℚ)/10 < defaultConfig.hard_edge_battery
      by norm_num [defaultConfig])], by decide⟩

/-- C2 amended: the decision rules are evaluated in strict priority order
with strict comparisons, first match winning — battery below
`hard_edge_battery` gives CLOUD_ONLY with explanation "Battery too low for
edge processing" (capitalised as in the code); otherwise high battery and
good network give EDGE_ONLY; otherwise score above threshold gives HYBRID;
otherwise DEFERRED.  Battery 0.1 under the defaults yields CLOUD_ONLY
regardless of the other inputs. -/
theorem claim_C2_rule_precedence (c : OrchestratorConfig)
    (hv : c.validate = .ok ()) (b n sc : ℚ)
    (hb0 : 0 ≤ b) (hb1 : b ≤ 1) (hn0 : 0 ≤ n) (hn1 : n ≤ 1) :
    (b < c.hard_edge_battery →
      decideModeExplanation b n sc c =
        (.CLOUD_ONLY, "Battery too low for edge processing")) ∧
    (¬ b < c.hard_edge_battery → (b > c.hard_cloud_battery ∧ n > 7/10) →
      decideModeExplanation b n sc c =
        (.EDGE_ONLY, "High battery and good network for edge processing")) ∧
    (¬ b < c.hard_edge_battery → ¬ (b > c.hard_cloud_battery ∧ n > 7/10) →
      sc > c.threshold →
      decideModeExplanation b n sc c =
        (.HYBRID, "Good conditions for hybrid processing")) ∧
    (¬ b < c.hard_edge_battery → ¬ (b > c.hard_cloud_battery ∧ n > 7/10) →
      ¬ sc > c.threshold →
      decideModeExplanation b n sc c =
        (.DEFERRED, "Poor conditions, defer processing")) ∧
    (∀ n' sc' : ℚ, decideModeExplanation (1/10) n' sc' defaultConfig =
      (.CLOUD_ONLY, "Battery too low for edge processing")) := by
  refine ⟨fun h1 => ?_, fun h1 h2 => ?_, fun h1 h2 h3 => ?_, fun h1 h2 h3 => ?_,
    fun n' sc' => by
      rw [decideModeExplanation, if_pos (show (1:ℚ)/10 < defaultConfig.hard_edge_battery
        by norm_num [defaultConfig])]⟩
  · rw [decideModeExplanation, if_pos h1]
  · rw [decideModeExplanation, if_neg h1, if_pos h2]
  · rw [decideModeExplanation, if_neg h1, if_neg h2, if_pos h3]
  · rw [decideModeExplanation, if_neg h1, if_neg h2, if_neg h3]

/-- C2 witness: the amended rule-precedence theorem applied to the default
configuration at battery 0.9, network 0.8, score 0.87, which fires the
EDGE_ONLY rule. -/
theorem claim_C2_rule_precedence_witness :
    defaultConfig.validate = .ok () ∧
    ((0:ℚ) ≤ 9/10 ∧ (9:ℚ)/10 ≤ 1 ∧ (0:ℚ) ≤ 4/5 ∧ (4:ℚ)/5 ≤ 1) ∧
    (¬ (9:ℚ)/10 < defaultConfig.hard_edge_battery) ∧
    ((9:ℚ)/10 > defaultConfig.hard_cloud_battery ∧ (4:ℚ)/5 > 7/10) ∧
    decideModeExplanation (9/10) (4/5) (87/100) defaultConfig =
      (.EDGE_ONLY, "High battery and good network for edge processing") :=
  ⟨validate_defaultConfig, by norm_num, by norm_num [defaultConfig],
    by norm_num [defaultConfig],
    (claim_C2_rule_precedence defaultConfig validate_defaultConfig (9/10) (4/5) (87/100)
      (by norm_num) (by norm_num) (by norm_num) (by norm_num)).2.1
      (by norm_num [defaultConfig]) (by norm_num [defaultConfig])⟩

/-- C3: `calculate_sustainability_score` computes exactly the weighted sum
of the spec — battery·w_battery + network·w_network + (1−carbon)·w_carbon
with missing values defaulting to 0.5 and missing weights to 0.4/0.3/0.3 —
clamped to [0,1], and its result always lies in [0,1] (in particular for
non-negative weights summing to 1±0.001 and inputs in [0,1]³). -/
theorem claim_C3_score_formula_and_bounds :
    (∀ monitor_values weights : List (String × ℚ),
      calculate_sustainability_score monitor_values weights =
        spec_sustainability_score monitor_values weights) ∧
    (∀ monitor_values weights : List (String × ℚ),
      0 ≤ calculate_sustainability_score monitor_values weights ∧
        calculate_sustainability_score monitor_values weights ≤ 1) :=
  ⟨fun _ _ => rfl, fun _ _ => ⟨clamp01_nonneg _, clamp01_le_one _⟩⟩

/-- C4 counterexample: at score 0.5, battery 0.5, network 0, carbon 0.5 the
combined confidence before the square-root compression is 3/4 (the three
distance-from-0.5 sub-confidences are each 1 there, the network
sub-confidence 0), not 0 as the claim states. -/
theorem claim_C4_premean_counterexample :
    confidencePre (1/2) ⟨1/2, 0, 1/2, "sim"⟩ = 3/4 ∧ ((3:ℚ)/4 ≠ 0) := by
  constructor
  · norm_num [confidencePre]
  · norm_num

/-- C4 amended: for score and context fields in [0,1],
`calculate_confidence` lies in [0,1]; at score 0.5, battery 0.5, network 0,
carbon 0.5 the combined pre-compression confidence computes to 3/4, and the
final value stays within [0,1] after the compression. -/
theorem claim_C4_confidence_bounds (score : ℚ) (ctx : SystemContext)
    (hs0 : 0 ≤ score) (hs1 : score ≤ 1)
    (hb0 : 0 ≤ ctx.battery) (hb1 : ctx.battery ≤ 1)
    (hn0 : 0 ≤ ctx.network) (hn1 : ctx.network ≤ 1)
    (hc0 : 0 ≤ ctx.carbon) (hc1 : ctx.carbon ≤ 1) :
    (0 ≤ calculate_confidence score ctx ∧ calculate_confidence score ctx ≤ 1) ∧
    confidencePre (1/2) ⟨1/2, 0, 1/2, "sim"⟩ = 3/4 ∧
    (0 ≤ calculate_confidence (1/2) ⟨1/2, 0, 1/2, "sim"⟩ ∧
      calculate_confidence (1/2) ⟨1/2, 0, 1/2, "sim"⟩ ≤ 1) := by
  have hbounds : ∀ (s : ℚ) (c : SystemContext),
      0 ≤ calculate_confidence s c ∧ calculate_confidence s c ≤ 1 := fun s c =>
    ⟨le_max_left 0 _, max_le (by norm_num) (min_le_left 1 _)⟩
  exact ⟨hbounds score ctx, by norm_num [confidencePre], hbounds _ _⟩

/-- C4 witness: the amended bounds theorem applied at score 0.5 and the
context (battery 0.5, network 0, carbon 0.5). -/
theorem claim_C4_confidence_bounds_witness :
    ((0:ℚ) ≤ 1/2 ∧ (1:ℚ)/2 ≤ 1 ∧ (0:ℚ) ≤ 0 ∧ (0:ℚ) ≤ 1) ∧
    (0 ≤ calculate_confidence (1/2) ⟨1/2, 0, 1/2, "sim"⟩ ∧
      calculate_confidence (1/2) ⟨1/2, 0, 1/2, "sim"⟩ ≤ 1) :=
  ⟨by norm_num,
   (claim_C4_confidence_bounds (1/2) ⟨1/2, 0, 1/2, "sim"⟩ (by norm_num) (by norm_num)
     (by norm_num) (by norm_num) (by norm_num) (by norm_num) (by norm_num)
     (by norm_num)).1⟩

/-- C5 counterexample: a configuration with `hard_edge_battery` 5 (far
outside [0,1]) passes `validate`, and `update_weights` on the default
configuration accepts the partial mapping battery 0.7 / network 0.3 (sum
1.0) yet leaves stored weights battery 0.7, network 0.3, carbon 0.3, whose
sum 1.3 is off 1.0 by far more than 0.001. -/
theorem claim_C5_validation_counterexample :
    OrchestratorConfig.validate { defaultConfig with hard_edge_battery := 5 } =
      Except.ok () ∧
    ¬ ((5:ℚ) ≤ 1) ∧
    OrchestratorConfig.update_weights defaultConfig
        [("battery", 7/10), ("network", 3/10)] =
      Except.ok { defaultConfig with
        weights := [("battery", 7/10), ("network", 3/10), ("carbon", 3/10)] } ∧
    valuesSum [("battery", (7:ℚ)/10), ("network", 3/10), ("carbon", 3/10)] = 13/10 ∧
    |(13:ℚ)/10 - 1| > 1/1000 := by
  refine ⟨?_, by norm_num, ?_, by norm_num [valuesSum], ?_⟩
  · have h1 : ¬ ¬ ((0:ℚ) ≤ defaultConfig.threshold ∧ defaultConfig.threshold ≤ 1) := by
      norm_num [defaultConfig]
    have hsum : valuesSum defaultConfig.weights = 1 := by
      norm_num [valuesSum, defaultConfig]
    have h2 : ¬ |valuesSum defaultConfig.weights - 1| > 1/1000 := by
      rw [hsum]; norm_num
    have h3 : ¬ defaultConfig.weights = [] := by simp [defaultConfig]
    rw [OrchestratorConfig.validate, if_neg h1, if_neg h2, if_neg h3]
  · rw [OrchestratorConfig.update_weights, if_neg ?_]
    · rfl
    · have : valuesSum [("battery", (7:ℚ)/10), ("network", 3/10)] = 1 := by
        norm_num [valuesSum]
      rw [this]; norm_num
  · rw [show (13:ℚ)/10 - 1 = 3/10 by norm_num, abs_of_pos (by norm_num : (0:ℚ) < 3/10)]
    norm_num

/-- C5 amended: `validate` rejects a threshold outside [0,1] and a weight
sum off 1.0 by more than 0.001 (weights 0.5/0.5/0.1 rejected, the default
0.4/0.3/0.3 accepted) but performs no range check on `hard_edge_battery` or
`hard_cloud_battery`; `update_weights` rejects new mappings whose own sum is
off 1.0 by more than 0.001 and merges accepted mappings into the stored
dictionary, so the stored sum is restored to 1.0±0.001 when the new mapping
reassigns all three stored keys (a partial mapping may leave it violated). -/
theorem claim_C5_config_validation (c : OrchestratorConfig)
    (new : List (String × ℚ)) :
    (¬ (0 ≤ c.threshold ∧ c.threshold ≤ 1) →
      c.validate = .error .thresholdOutOfRange) ∧
    ((0 ≤ c.threshold ∧ c.threshold ≤ 1) → |valuesSum c.weights - 1| > 1/1000 →
      c.validate = .error .weightSumInvalid) ∧
    (OrchestratorConfig.validate { defaultConfig with
        weights := [("battery", 1/2), ("network", 1/2), ("carbon", 1/10)] } =
      .error .weightSumInvalid) ∧
    defaultConfig.validate = .ok () ∧
    (|valuesSum new - 1| > 1/1000 →
      c.update_weights new = .error .weightSumInvalid) ∧
    (¬ |valuesSum new - 1| > 1/1000 →
      c.update_weights new = .ok { c with weights := dictUpdate c.weights new }) ∧
    (∀ (bw nw cw b' n' c' t he hc : ℚ) (sz : ℕ) (cfg' : OrchestratorConfig),
      OrchestratorConfig.update_weights
          ⟨[("battery", bw), ("network", nw), ("carbon", cw)], t, he, hc, sz⟩
          [("battery", b'), ("network", n'), ("carbon", c')] = .ok cfg' →
      cfg'.weights = [("battery", b'), ("network", n'), ("carbon", c')] ∧
      |valuesSum cfg'.weights - 1| ≤ 1/1000) := by
  refine ⟨fun h => ?_, fun h1 h2 => ?_, ?_, validate_defaultConfig,
    fun h => ?_, fun h => ?_, ?_⟩
  · rw [OrchestratorConfig.validate, if_pos h]
  · rw [OrchestratorConfig.validate, if_neg (not_not_intro h1), if_pos h2]
  · have h1 : ¬ ¬ ((0:ℚ) ≤ defaultConfig.threshold ∧ defaultConfig.threshold ≤ 1) := by
      norm_num [defaultConfig]
    have hsum : valuesSum [("battery", (1:ℚ)/2), ("network", 1/2), ("carbon", 1/10)]
        = 11/10 := by norm_num [valuesSum]
    have h2 : |valuesSum [("battery", (1:ℚ)/2), ("network", 1/2), ("carbon", 1/10)]
        - 1| > 1/1000 := by
      rw [hsum, show (11:ℚ)/10 - 1 = 1/10 by norm_num,
        abs_of_pos (by norm_num : (0:ℚ) < 1/10)]
      norm_num
    rw [OrchestratorConfig.validate, if_neg h1, if_pos h2]
  · rw [OrchestratorConfig.update_weights, if_pos h]
  · rw [OrchestratorConfig.update_weights, if_neg h]
  · intro bw nw cw b' n' c' t he hc sz cfg' h
    by_cases hcond : |valuesSum [("battery", b'), ("network", n'), ("carbon", c')]
        - 1| > 1/1000
    · rw [OrchestratorConfig.update_weights, if_pos hcond] at h
      exact absurd h (by simp)
    · rw [OrchestratorConfig.update_weights, if_neg hcond] at h
      have hc' := Except.ok.inj h
      rw [← hc']
      refine ⟨rfl, ?_⟩
      exact not_lt.mp hcond

/-- C5 witness: the amended validation theorem applied to the default
configuration with threshold 2, which `validate` rejects. -/
theorem claim_C5_config_validation_witness :
    ¬ ((0:ℚ) ≤ 2 ∧ (2:ℚ) ≤ 1) ∧
    OrchestratorConfig.validate { defaultConfig with threshold := 2 } =
      .error .thresholdOutOfRange :=
  ⟨by norm_num,
   (claim_C5_config_validation { defaultConfig with threshold := 2 } []).1
     (by norm_num)⟩

lemma foldl_appendStep (N : ℕ) (hN : 1 ≤ N) :
    ∀ (ds h : List Decision), h.length ≤ N →
      ds.foldl (appendDecisionStep N) h = (h ++ ds).drop (h.length + ds.length - N) := by
  intro ds
  induction ds with
  | nil =>
    intro h hle
    simp [Nat.sub_eq_zero_of_le hle]
  | cons d ds ih =>
    intro h hle
    rw [List.foldl_cons]
    by_cases hlt : h.length < N
    · have hstep : appendDecisionStep N h d = h ++ [d] := by
        simp only [appendDecisionStep]
        rw [if_neg (by simp; omega)]
      rw [hstep, ih (h ++ [d]) (by simp; omega)]
      have e : (h ++ [d]) ++ ds = h ++ d :: ds := by simp
      rw [e]
      congr 1
      simp only [List.length_append, List.length_cons, List.length_nil]
      omega
    · have hlen : h.length = N := le_antisymm hle (not_lt.mp hlt)
      have hstep : appendDecisionStep N h d = (h ++ [d]).drop 1 := by
        simp only [appendDecisionStep]
        rw [if_pos (by simp; omega), pySliceLast, if_neg (by omega)]
        congr 1
        simp only [List.length_append, List.length_cons, List.length_nil, hlen]
        omega
      have hlen1 : ((h ++ [d]).drop 1).length ≤ N := by
        simp only [List.length_drop, List.length_append, List.length_cons,
          List.length_nil, hlen]
        omega
      rw [hstep, ih _ hlen1]
      have e1 : (h ++ [d]).drop 1 ++ ds = ((h ++ [d]) ++ ds).drop 1 :=
        (List.drop_append_of_le_length (by simp)).symm
      rw [e1, List.drop_drop]
      have e2 : (h ++ [d]) ++ ds = h ++ d :: ds := by simp
      rw [e2]
      congr 1
      simp only [List.length_drop, List.length_append, List.length_cons,
        List.length_nil, hlen]
      omega

/-- C6: with capacity N ≥ 1, after appending N+k decisions through
`make_decision`'s append-and-trim step the retained history is exactly the
last N appended decisions in their original relative order (the first k are
evicted, oldest first). -/
theorem claim_C6_history_window (N k : ℕ) (hN : 1 ≤ N) (ds : List Decision)
    (hlen : ds.length = N + k) :
    runHistory N ds = ds.drop k ∧ (runHistory N ds).length = N := by
  have hmain := foldl_appendStep N hN ds [] (by simp)
  simp only [List.nil_append, List.length_nil, Nat.zero_add] at hmain
  constructor
  · rw [runHistory, hmain, hlen]
    congr 1
    omega
  · rw [runHistory, hmain, List.length_drop]
    omega

/-- C6 witness: capacity 2 with three appended decisions retains exactly the
last two. -/
theorem claim_C6_history_window_witness :
    1 ≤ 2 ∧ ([decisionA, decisionB, decisionA] : List Decision).length = 2 + 1 ∧
    (runHistory 2 [decisionA, decisionB, decisionA] =
        [decisionA, decisionB, decisionA].drop 1 ∧
      (runHistory 2 [decisionA, decisionB, decisionA]).length = 2) :=
  ⟨by norm_num, rfl, claim_C6_history_window 2 1 (by norm_num) _ rfl⟩

/-- C7 counterexample: on a concrete two-decision history the minimum
confidence is 0.27 and the minimum battery 0.31, yet neither value occurs
anywhere in the dictionary returned by `get_statistics` — it carries no
confidence min/max and no battery, network or carbon aggregates at all. -/
theorem claim_C7_statistics_counterexample :
    pyMin (historyPair.map Decision.confidence) = 27/100 ∧
    pyMin (historyPair.map Decision.battery) = 31/100 ∧
    (∀ p ∈ getStatistics historyPair, p.2 ≠ StatValue.num (27/100)) ∧
    (∀ p ∈ getStatistics historyPair, p.2 ≠ StatValue.num (31/100)) := by
  have hstats : getStatistics historyPair =
      [("total_decisions", .num 2), ("average_score", .num (1/2)),
       ("average_confidence", .num (2/5)), ("min_score", .num (1/2)),
       ("max_score", .num (1/2)),
       ("mode_distribution", .dist [("edge_only", 0), ("cloud_only", 0),
         ("hybrid", 0), ("deferred", 2)])] := by
    have hdist : modeDistribution historyPair =
        [("edge_only", 0), ("cloud_only", 0), ("hybrid", 0), ("deferred", 2)] := by
      decide
    rw [getStatistics, if_neg (by simp [historyPair]), hdist]
    norm_num [historyPair, decisionA, decisionB, pyMin, pyMax]
  refine ⟨?_, ?_, ?_, ?_⟩
  · norm_num [historyPair, decisionA, decisionB, pyMin, min_def]
  · norm_num [historyPair, decisionA, decisionB, pyMin, min_def]
  · rw [hstats]
    intro p hp
    simp only [List.mem_cons, List.not_mem_nil, or_false] at hp
    rcases hp with rfl | rfl | rfl | rfl | rfl | rfl <;> simp <;> norm_num
  · rw [hstats]
    intro p hp
    simp only [List.mem_cons, List.not_mem_nil, or_false] at hp
    rcases hp with rfl | rfl | rfl | rfl | rfl | rfl <;> simp <;> norm_num

/-- C7 amended: on a nonempty history `get_statistics` returns exactly the
decision count, the mean, min and max of score, the mean of confidence, and
a per-mode count in which all four mode keys are present and zero-filled
when a mode never occurred; on an empty history it returns the empty
dictionary. -/
theorem claim_C7_statistics_contents (h : List Decision) (hne : h ≠ []) :
    getStatistics h =
      [("total_decisions", StatValue.num h.length),
       ("average_score", .num ((h.map Decision.score).sum / h.length)),
       ("average_confidence", .num ((h.map Decision.confidence).sum / h.length)),
       ("min_score", .num (pyMin (h.map Decision.score))),
       ("max_score", .num (pyMax (h.map Decision.score))),
       ("mode_distribution", .dist (modeDistribution h))] ∧
    (∀ m : ExecutionMode,
      (m.value, (h.filter fun d => d.recommended_mode = m).length) ∈
        modeDistribution h) ∧
    (∀ m : ExecutionMode, (∀ d ∈ h, d.recommended_mode ≠ m) →
      (m.value, 0) ∈ modeDistribution h) ∧
    getStatistics [] = [] := by
  refine ⟨?_, ?_, ?_, rfl⟩
  · rw [getStatistics, if_neg hne]
    simp [List.length_map]
  · intro m
    exact List.mem_map.mpr ⟨m, by cases m <;> decide, rfl⟩
  · intro m hm
    have hfil : (h.filter fun d => d.recommended_mode = m) = [] :=
      List.filter_eq_nil_iff.mpr fun d hd => by simpa using hm d hd
    exact List.mem_map.mpr ⟨m, by cases m <;> decide, by simp [hfil]⟩

/-- C7 witness: the amended statistics theorem applied to the concrete
two-decision history. -/
theorem claim_C7_statistics_contents_witness :
    historyPair ≠ [] ∧
    getStatistics historyPair =
      [("total_decisions", StatValue.num historyPair.length),
       ("average_score", .num ((historyPair.map Decision.score).sum / historyPair.length)),
       ("average_confidence",
         .num ((historyPair.map Decision.confidence).sum / historyPair.length)),
       ("min_score", .num (pyMin (historyPair.map Decision.score))),
       ("max_score", .num (pyMax (historyPair.map Decision.score))),
       ("mode_distribution", .dist (modeDistribution historyPair))] :=
  ⟨by simp [historyPair],
   (claim_C7_statistics_contents historyPair (by simp [historyPair])).1⟩

/-- C8: holding the weights and the other inputs fixed, with non-negative
weights summing to 1±0.001 and inputs in [0,1], the sustainability score is
monotonically non-decreasing in battery and in network and monotonically
non-increasing in carbon. -/
theorem claim_C8_score_monotonicity (w : List (String × ℚ))
    (hw : ∀ p ∈ w, 0 ≤ p.2) (hsum : |valuesSum w - 1| ≤ 1/1000) :
    (∀ b b' n c : ℚ, 0 ≤ b → b ≤ 1 → 0 ≤ b' → b' ≤ 1 → 0 ≤ n → n ≤ 1 →
      0 ≤ c → c ≤ 1 → b ≤ b' →
      calculate_sustainability_score (monitorValuesOf b n c) w ≤
        calculate_sustainability_score (monitorValuesOf b' n c) w) ∧
    (∀ b n n' c : ℚ, 0 ≤ b → b ≤ 1 → 0 ≤ n → n ≤ 1 → 0 ≤ n' → n' ≤ 1 →
      0 ≤ c → c ≤ 1 → n ≤ n' →
      calculate_sustainability_score (monitorValuesOf b n c) w ≤
        calculate_sustainability_score (monitorValuesOf b n' c) w) ∧
    (∀ b n c c' : ℚ, 0 ≤ b → b ≤ 1 → 0 ≤ n → n ≤ 1 → 0 ≤ c → c ≤ 1 →
      0 ≤ c' → c' ≤ 1 → c ≤ c' →
      calculate_sustainability_score (monitorValuesOf b n c') w ≤
        calculate_sustainability_score (monitorValuesOf b n c) w) := by
  have hwB : 0 ≤ dictGetD w "battery" (2/5) := dictGetD_nonneg (by norm_num) _ hw
  have hwN : 0 ≤ dictGetD w "network" (3/10) := dictGetD_nonneg (by norm_num) _ hw
  have hwC : 0 ≤ dictGetD w "carbon" (3/10) := dictGetD_nonneg (by norm_num) _ hw
  refine ⟨?_, ?_, ?_⟩
  · intro b b' n c _ _ _ _ _ _ _ _ hbb
    rw [calc_score_mk, calc_score_mk]
    apply clamp01_mono
    have := mul_le_mul_of_nonneg_right hbb hwB
    linarith
  · intro b n n' c _ _ _ _ _ _ _ _ hnn
    rw [calc_score_mk, calc_score_mk]
    apply clamp01_mono
    have := mul_le_mul_of_nonneg_right hnn hwN
    linarith
  · intro b n c c' _ _ _ _ _ _ _ _ hcc
    rw [calc_score_mk, calc_score_mk]
    apply clamp01_mono
    have : (1 - c') * dictGetD w "carbon" (3/10) ≤
        (1 - c) * dictGetD w "carbon" (3/10) :=
      mul_le_mul_of_nonneg_right (by linarith) hwC
    linarith

/-- C8 witness: the monotonicity theorem applied to the default weights with
battery raised from 0 to 1 at network and carbon 0.5. -/
theorem claim_C8_score_monotonicity_witness :
    (∀ p ∈ defaultConfig.weights, 0 ≤ p.2) ∧
    |valuesSum defaultConfig.weights - 1| ≤ 1/1000 ∧
    ((0:ℚ) ≤ 0 ∧ (0:ℚ) ≤ 1 ∧ (0:ℚ) ≤ 1/2 ∧ (1:ℚ)/2 ≤ 1) ∧
    calculate_sustainability_score (monitorValuesOf 0 (1/2) (1/2))
        defaultConfig.weights ≤
      calculate_sustainability_score (monitorValuesOf 1 (1/2) (1/2))
        defaultConfig.weights := by
  have hw : ∀ p ∈ defaultConfig.weights, 0 ≤ p.2 := by
    intro p hp
    simp only [defaultConfig, List.mem_cons, List.not_mem_nil, or_false] at hp
    rcases hp with rfl | rfl | rfl <;> norm_num
  have hsum : |valuesSum defaultConfig.weights - 1| ≤ 1/1000 := by
    rw [show valuesSum defaultConfig.weights = 1 by norm_num [valuesSum, defaultConfig]]
    norm_num
  exact ⟨hw, hsum, by norm_num,
    (claim_C8_score_monotonicity defaultConfig.weights hw hsum).1 0 1 (1/2) (1/2)
      le_rfl (by norm_num) (by norm_num) le_rfl (by norm_num) (by norm_num)
      (by norm_num) (by norm_num) (by norm_num)⟩

/-- C9: each monitor's `get_info` never raises past its boundary — it always
returns a reading, and on any probe failure it returns the documented
fallback reading: battery 85.0% charging, network 10.0 Mbps / 100 ms /
quality 0.5 / connected, carbon intensity 400.0 not green. -/
theorem claim_C9_get_info_fallback :
    (∀ p, ∃ i, batteryGetInfo p = .ok i) ∧
    (∀ e, batteryGetInfo (.error e) =
      .ok ⟨85, true, "fallback", "fallback"⟩) ∧
    (∀ p, ∃ i, networkGetInfo p = .ok i) ∧
    (∀ e, networkGetInfo (.error e) = .ok networkFallbackInfo) ∧
    (networkFallbackInfo.speed_mbps = 10 ∧ networkFallbackInfo.latency_ms = 100 ∧
      networkFallbackInfo.quality = 1/2 ∧ networkFallbackInfo.connected = true) ∧
    (∀ z p, ∃ i, carbonGetInfo z p = .ok i) ∧
    (∀ z e, carbonGetInfo z (.error e) = .ok ⟨400, false, z, "fallback"⟩) :=
  ⟨fun p => by cases p <;> exact ⟨_, rfl⟩,
   fun _ => rfl,
   fun p => by cases p <;> exact ⟨_, rfl⟩,
   fun _ => rfl,
   ⟨rfl, rfl, rfl, rfl⟩,
   fun z p => by cases p <;> exact ⟨_, rfl⟩,
   fun z _ => rfl⟩

lemma pingHost_failed (e : PyExc) : pingHost (.failed e) = .error e := by
  rw [pingHost, ite_self]

lemma pingRawNetworkInfo_fails (subs : List SubprocResult) (rand : ℚ) :
    pingRawNetworkInfo subs rand = .error (.runtime "All ping attempts failed") := by
  induction subs with
  | nil => rfl
  | cons s rest ih =>
    cases s with
    | completed out rc => rw [pingRawNetworkInfo]; exact ih
    | failed e => rw [pingRawNetworkInfo, pingHost_failed]; exact ih

/-- C10: `re` is not a module-level name of network_monitor.py, so the
parsing step of `_ping_host` raises `NameError` whenever the ping subprocess
completes; `NameError` is not among the exceptions named by the `except`
clause of `_ping_host`; consequently `_get_raw_network_info` always ends
with `RuntimeError("All ping attempts failed")` and `PingMonitor.get_info`
always returns the fallback reading (10.0 Mbps, 100 ms, quality 0.5). -/
theorem claim_C10_ping_always_fallback :
    "re" ∉ networkMonitorModuleNames ∧
    caughtAtPingExcept .nameErr = false ∧
    (∀ out rc, pingHost (.completed out rc) = .error .nameErr) ∧
    (∀ subs rand, pingRawNetworkInfo subs rand =
      .error (.runtime "All ping attempts failed")) ∧
    (∀ subs rand, networkGetInfo (pingRawNetworkInfo subs rand) =
      .ok networkFallbackInfo) :=
  ⟨by decide, rfl, fun _ _ => rfl, pingRawNetworkInfo_fails,
   fun subs rand => by rw [pingRawNetworkInfo_fails]; rfl⟩

end GreenOrch
